import Mathlib

/-!
Verification of the silver-layer transformation and validation engine of the
fhir-hackathon ETL pipeline.

The Python values flowing through the pipeline (parsed FHIR JSON fragments)
are embedded as the inductive type `PyVal`.  Pure Python helper functions from
`src/common/fhir.py`, `src/transformations/observations.py`,
`src/transformations/conditions.py` are translated one-to-one; functions that
can raise a Python exception are embedded in the `Except PyErr` monad.  The
Polars expression layer of `src/validations/*.py`, `src/reporting/validation_reports.py`
and `src/gold/observations_per_patient.py` is embedded row-wise: a nullable
column value is an `Option`, Kleene boolean logic models the null semantics of
Polars boolean expressions, and the frame combinators (explode, group_by,
left join) are modelled as deterministic list functions that fix the engine's
unspecified row order to first-occurrence order.
-/

/-- A Python float: either a finite value (idealized as a rational) or one of
the special values nan / +inf / -inf. -/
inductive PFloat where
  | fin (q : Rat)
  | nan
  | inf
  | ninf
deriving DecidableEq, Repr

/-- Models `math.isfinite` / the Polars `is_finite` test on a float value. -/
def PFloat.isFinite : PFloat → Bool
  | .fin _ => true
  | _ => false

/-- A Python/JSON value as it appears in a bronze FHIR row: None, bool, int,
float, str, list, or dict (modelled as an association list with unique keys,
looked up at first occurrence like a Python dict). -/
inductive PyVal where
  | none
  | pb (x : Bool)
  | pi (x : Int)
  | pf (x : PFloat)
  | ps (x : String)
  | plist (xs : List PyVal)
  | pdict (kvs : List (String × PyVal))

/-- `v is None` test. -/
def PyVal.isNone : PyVal → Bool
  | .none => true
  | _ => false

/-- `isinstance(v, dict)` test. -/
def PyVal.isDict : PyVal → Bool
  | .pdict _ => true
  | _ => false

/-- `isinstance(v, list)` test. -/
def PyVal.isList : PyVal → Bool
  | .plist _ => true
  | _ => false

/-- `isinstance(v, bool)` test. -/
def PyVal.isBool : PyVal → Bool
  | .pb _ => true
  | _ => false

/-- `isinstance(v, int)` test.  In Python `bool` is a subclass of `int`, so a
boolean passes this test as well. -/
def PyVal.isInstInt : PyVal → Bool
  | .pi _ => true
  | .pb _ => true
  | _ => false

/-- `isinstance(v, (int, float))` test (booleans included, as in Python). -/
def PyVal.isNumber : PyVal → Bool
  | .pi _ => true
  | .pf _ => true
  | .pb _ => true
  | _ => false

/-- Python truthiness: None, False, 0, 0.0, "", [] and the empty dict are
falsy, everything else is truthy (nan and the infinities are truthy). -/
def pyTruthy : PyVal → Bool
  | .none => false
  | .pb b => b
  | .pi n => n != 0
  | .pf x => match x with | .fin q => q != 0 | _ => true
  | .ps s => s != ""
  | .plist xs => !xs.isEmpty
  | .pdict kvs => !kvs.isEmpty

/-- `d.get(k)`: the value stored under `k`, or None when the key is absent. -/
def lookupD (kvs : List (String × PyVal)) (k : String) : PyVal :=
  match kvs.find? (fun kv => kv.1 = k) with
  | some kv => kv.2
  | Option.none => PyVal.none

/-- `d.get(k, default)`: the default applies only when the key is absent. -/
def getOr (kvs : List (String × PyVal)) (k : String) (d : PyVal) : PyVal :=
  match kvs.find? (fun kv => kv.1 = k) with
  | some kv => kv.2
  | Option.none => d

/-- The Python idiom `x or d`: `x` when truthy, otherwise `d`. -/
def pyOr (x d : PyVal) : PyVal :=
  if pyTruthy x then x else d

/-- Renders a finite rational the way Python prints the corresponding float
for the simple decimal values that occur here; the special values print as
Python prints them. -/
def PFloat.render : PFloat → String
  | .fin q => if q.den = 1 then toString q.num ++ ".0" else toString q.num ++ "/" ++ toString q.den
  | .nan => "nan"
  | .inf => "inf"
  | .ninf => "-inf"

/-- Models Python `str(v)`.  The scalar cases are exact; the collection cases
use a fixed rendering, which no downstream computation of this pipeline ever
inspects (only scalar FHIR fields reach `str`). -/
def pyStr : PyVal → String
  | .none => "None"
  | .pb b => if b then "True" else "False"
  | .pi n => toString n
  | .pf x => x.render
  | .ps s => s
  | .plist _ => "[...]"
  | .pdict _ => "dict"

/-! ### A character-list model of Python float parsing

`float(s)` as used by the quantity-value extraction: optional surrounding
whitespace, an optional sign, then `inf`/`infinity`/`nan` (case-insensitive)
or an ordinary decimal literal `digits[.digits][e[sign]digits]` with at least
one mantissa digit.  The finite result is idealized as an exact rational. -/

/-- Numeric value of a digit run (most significant first). -/
def digitsToNat (cs : List Char) : Nat :=
  cs.foldl (fun acc c => acc * 10 + (c.toNat - 48)) 0

/-- Splits a character list at the first occurrence of `sep`, if any. -/
def splitAtChar (sep : Char) : List Char → Option (List Char × List Char)
  | [] => Option.none
  | c :: cs =>
    if c = sep then some ([], cs)
    else match splitAtChar sep cs with
      | some (l, r) => some (c :: l, r)
      | Option.none => Option.none

/-- Parses an unsigned decimal mantissa `digits[.digits]` (at least one digit
in total) as an exact rational. -/
def parseMantissa (cs : List Char) : Option Rat :=
  match splitAtChar '.' cs with
  | Option.none =>
    if cs ≠ [] ∧ cs.all Char.isDigit then some ((digitsToNat cs : Int) : Rat) else Option.none
  | some (ip, fp) =>
    if (ip ≠ [] ∨ fp ≠ []) ∧ ip.all Char.isDigit ∧ fp.all Char.isDigit then
      some (((digitsToNat ip : Int) : Rat) + ((digitsToNat fp : Int) : Rat) / ((10 : Rat) ^ fp.length))
    else Option.none

/-- Parses an optionally signed nonempty digit run as an integer. -/
def parseSignedInt (cs : List Char) : Option Int :=
  match cs with
  | '-' :: rest =>
    if rest ≠ [] ∧ rest.all Char.isDigit then some (-(digitsToNat rest : Int)) else Option.none
  | '+' :: rest =>
    if rest ≠ [] ∧ rest.all Char.isDigit then some ((digitsToNat rest : Int)) else Option.none
  | _ =>
    if cs ≠ [] ∧ cs.all Char.isDigit then some ((digitsToNat cs : Int)) else Option.none

/-- Scales a rational by a signed power of ten. -/
def scalePow10 (q : Rat) (e : Int) : Rat :=
  if 0 ≤ e then q * (10 : Rat) ^ e.toNat else q / (10 : Rat) ^ (-e).toNat

/-- Whitespace as stripped by Python float parsing. -/
def isPyWhitespace (c : Char) : Bool :=
  c = ' ' ∨ c = '\t' ∨ c = '\n' ∨ c = '\r'

/-- Models Python `float(s)` on a string: `some` on success, `none` when
Python would raise ValueError. -/
def pyFloatOfString (s : String) : Option PFloat :=
  let cs := ((s.toList.dropWhile isPyWhitespace).reverse.dropWhile isPyWhitespace).reverse
  let (neg, body) : Bool × List Char :=
    match cs with
    | '-' :: rest => (true, rest)
    | '+' :: rest => (false, rest)
    | _ => (false, cs)
  let low := body.map Char.toLower
  if low = ['i', 'n', 'f'] ∨ low = ['i', 'n', 'f', 'i', 'n', 'i', 't', 'y'] then
    some (if neg then PFloat.ninf else PFloat.inf)
  else if low = ['n', 'a', 'n'] then
    some PFloat.nan
  else
    let parsed : Option Rat :=
      match splitAtChar 'e' low with
      | Option.none => parseMantissa low
      | some (m, ex) =>
        match parseMantissa m, parseSignedInt ex with
        | some q, some e => some (scalePow10 q e)
        | _, _ => Option.none
    match parsed with
    | some q => some (PFloat.fin (if neg then -q else q))
    | Option.none => Option.none

/-- Models Python `float(v)` on an arbitrary value: `some` on success, `none`
when Python would raise TypeError or ValueError. -/
def pyFloat (v : PyVal) : Option PFloat :=
  match v with
  | .pi n => some (.fin (n : Rat))
  | .pf x => some x
  | .pb b => some (.fin (if b then 1 else 0))
  | .ps s => pyFloatOfString s
  | _ => Option.none

/-! ### Common FHIR extractors (`src/common/fhir.py`)

`src/transformations/observations.py` carries private copies of
`iter_dict_list` / `iter_codings` / `_primary_coding_fields` /
`_extract_code_text` / `_extract_reference` / `_extract_reference_id` /
`_extract_effective_datetime` that are textually identical to the
`src/common/fhir.py` versions (the observation-local reference-id extractor
matches `extract_reference_id`, not the divergent Condition one), so each pair
is embedded once. -/

/-- `iter_dict_list`: the dict entries of a value that should be a list of
dicts; empty when the value is not a list. -/
def iterDictList (v : PyVal) : List (List (String × PyVal)) :=
  match v with
  | .plist xs =>
    xs.filterMap (fun x => match x with | .pdict kvs => some kvs | _ => Option.none)
  | _ => []

/-- `iter_codings`: the coding entries of a CodeableConcept. -/
def iterCodings (cc : PyVal) : List (List (String × PyVal)) :=
  match cc with
  | .pdict kvs => iterDictList (lookupD kvs "coding")
  | _ => []

/-- `extract_primary_coding` / `_primary_coding_fields`: `(system, code,
display)` of the first coding entry, all None when absent. -/
def primaryCodingFields (cc : PyVal) : PyVal × PyVal × PyVal :=
  match iterCodings cc with
  | [] => (.none, .none, .none)
  | c :: _ => (lookupD c "system", lookupD c "code", lookupD c "display")

/-- `extract_code_text` / `_extract_code_text`: `str(text)` of a truthy
CodeableConcept text field, else None. -/
def extractCodeText (cc : PyVal) : Option String :=
  match cc with
  | .pdict kvs =>
    let t := lookupD kvs "text"
    if pyTruthy t then some (pyStr t) else Option.none
  | _ => Option.none

/-- `extract_reference` / `_extract_reference`: `str` of a truthy `reference`
entry of a Reference dict, None for a non-dict or falsy reference. -/
def extractReference (refObj : PyVal) : Option String :=
  match refObj with
  | .pdict kvs =>
    let r := lookupD kvs "reference"
    if pyTruthy r then some (pyStr r) else Option.none
  | _ => Option.none

/-- The character list after the last `sep`; the whole list when `sep` does
not occur.  Models `s.rsplit(sep, 1)[-1]` and `s.split(sep)[-1]`. -/
def afterLastChar (sep : Char) (cs : List Char) : List Char :=
  cs.foldl (fun acc c => if c = sep then [] else acc ++ [c]) []

/-- Whether `pre` is a prefix of `cs`. -/
def charsStartWith (cs pre : List Char) : Bool :=
  pre.isPrefixOf cs

/-- `extract_reference_id` (`src/common/fhir.py`, also the observation-local
`_extract_reference_id`): None on falsy input; a `urn:uuid:` prefix is
stripped first (an empty remainder collapses to None via `or None`); else the
tail after the last `/` (again None when empty); else the string unchanged. -/
def extractReferenceId (reference : Option String) : Option String :=
  match reference with
  | Option.none => Option.none
  | some s =>
    if s = "" then Option.none
    else
      let cs := s.toList
      if charsStartWith cs ("urn:uuid:".toList) then
        let rest := cs.drop 9
        if rest = [] then Option.none else some (String.mk rest)
      else if cs.contains '/' then
        let tail := afterLastChar '/' cs
        if tail = [] then Option.none else some (String.mk tail)
      else some s

/-! ### Observation transformer (`src/transformations/observations.py`) -/

/-- `_extract_effective_datetime`: the first truthy of `effectiveDateTime`,
`effectiveInstant`, `effectiveTime` (as `str`), else the period rendering
`start/end` (or the single truthy bound), else None. -/
def extractEffectiveDatetime (row : List (String × PyVal)) : Option String :=
  let dt := lookupD row "effectiveDateTime"
  if pyTruthy dt then some (pyStr dt)
  else
    let inst := lookupD row "effectiveInstant"
    if pyTruthy inst then some (pyStr inst)
    else
      let tm := lookupD row "effectiveTime"
      if pyTruthy tm then some (pyStr tm)
      else
        match lookupD row "effectivePeriod" with
        | .pdict p =>
          let start := lookupD p "start"
          let stop := lookupD p "end"
          if pyTruthy start ∧ pyTruthy stop then some (pyStr start ++ "/" ++ pyStr stop)
          else if pyTruthy start then some (pyStr start)
          else if pyTruthy stop then some (pyStr stop)
          else Option.none
        | _ => Option.none

/-- The 13 columns produced by `_extract_value_fields` for one polymorphic
value[x] slot.  Column types follow the runtime types of the Python values:
`value_type` is None or a literal string, `value_quantity_value` is None or a
float, `value_string` / `value_datetime` are None or `str(...)` results,
`value_boolean` is None or a bool; the quantity unit/system/code, the
codeable-concept coding fields and `value_integer` are raw dict lookups kept
as `PyVal` (the isinstance-int guard on `value_integer` admits Python bools). -/
structure ValueFields where
  value_type : Option String
  value_quantity_value : Option PFloat
  value_quantity_unit : PyVal
  value_quantity_system : PyVal
  value_quantity_code : PyVal
  value_codeable_concept_text : Option String
  value_codeable_concept_system : PyVal
  value_codeable_concept_code : PyVal
  value_codeable_concept_display : PyVal
  value_string : Option String
  value_boolean : Option Bool
  value_integer : PyVal
  value_datetime : Option String

/-- `_extract_value_fields` (`src/transformations/observations.py`, lines
130-191).  The type tag resolves with priority quantity (a dict-valued
`valueQuantity`), then codeable-concept (a dict-valued
`valueCodeableConcept`), then the first non-None of `valueString`,
`valueBoolean`, `valueInteger`, `valueDateTime`; the individual value columns
are extracted from their own keys independently of the resolved tag. -/
def extractValueFields (value_obj : List (String × PyVal)) : ValueFields :=
  let value_quantity := lookupD value_obj "valueQuantity"
  let value_cc := lookupD value_obj "valueCodeableConcept"
  let vtypeAfterQuantity : Option String :=
    match value_quantity with
    | .pdict _ => some "quantity"
    | _ => Option.none
  let quantity_value : Option PFloat :=
    match value_quantity with
    | .pdict q =>
      let raw := lookupD q "value"
      if raw.isNumber then pyFloat raw
      else if raw.isNone then Option.none
      else pyFloat raw
    | _ => Option.none
  let cc := primaryCodingFields value_cc
  let vtypeAfterCC : Option String :=
    match vtypeAfterQuantity, value_cc with
    | Option.none, .pdict _ => some "codeable_concept"
    | t, _ => t
  let value_type : Option String :=
    match vtypeAfterCC with
    | some t => some t
    | Option.none =>
      if !(lookupD value_obj "valueString").isNone then some "string"
      else if !(lookupD value_obj "valueBoolean").isNone then some "boolean"
      else if !(lookupD value_obj "valueInteger").isNone then some "integer"
      else if !(lookupD value_obj "valueDateTime").isNone then some "datetime"
      else Option.none
  { value_type := value_type
    value_quantity_value := quantity_value
    value_quantity_unit := match value_quantity with | .pdict q => lookupD q "unit" | _ => .none
    value_quantity_system := match value_quantity with | .pdict q => lookupD q "system" | _ => .none
    value_quantity_code := match value_quantity with | .pdict q => lookupD q "code" | _ => .none
    value_codeable_concept_text := extractCodeText value_cc
    value_codeable_concept_system := cc.1
    value_codeable_concept_code := cc.2.1
    value_codeable_concept_display := cc.2.2
    value_string :=
      match lookupD value_obj "valueString" with
      | .none => Option.none
      | v => some (pyStr v)
    value_boolean :=
      match lookupD value_obj "valueBoolean" with
      | .pb b => some b
      | _ => Option.none
    value_integer :=
      let v := lookupD value_obj "valueInteger"
      if v.isInstInt then v else .none
    value_datetime :=
      match lookupD value_obj "valueDateTime" with
      | .none => Option.none
      | v => some (pyStr v) }

/-- One entry of the `components` list column: positional index, the code
fields of the component code CodeableConcept, and the full value[x] block. -/
structure CompRaw where
  component_index : Nat
  code_text : Option String
  code_system : PyVal
  code_code : PyVal
  code_display : PyVal
  value : ValueFields

/-- One silver Observation row as produced by `transform_observation_row`:
the Python dict literal plus the 13 value[x] columns merged in by
`silver_row.update(_extract_value_fields(row))`, gathered in `value`. -/
structure ObsRawRow where
  id : PyVal
  source_file : PyVal
  source_bundle : PyVal
  status : PyVal
  subject_reference : Option String
  subject_id : Option String
  effective_datetime : Option String
  issued : PyVal
  category_text : Option String
  category_system : PyVal
  category_code : PyVal
  category_display : PyVal
  code_text : Option String
  code_system : PyVal
  code_code : PyVal
  code_display : PyVal
  performer_references : List (Option String)
  performer_ids : List (Option String)
  code_codings : List (PyVal × PyVal × PyVal)
  category_codings : List (Nat × PyVal × PyVal × PyVal)
  components : List CompRaw
  component_count : Nat
  validation_errors : List String
  value : ValueFields

/-- `transform_observation_row` (`src/transformations/observations.py`, lines
194-280): one bronze Observation dict to one silver row.  Every nested
extraction is isinstance-guarded in the source, so the function is total.
The performer loop appends one reference and one resolved id per dict entry
of the performer list; it is rendered as the two corresponding maps. -/
def transformObservationRow (row : List (String × PyVal)) : ObsRawRow :=
  let code_obj := lookupD row "code"
  let category_list := iterDictList (lookupD row "category")
  let performer_list := iterDictList (lookupD row "performer")
  let component_list := iterDictList (lookupD row "component")
  let codeTriple := primaryCodingFields code_obj
  let category_text : Option String :=
    match category_list with
    | [] => Option.none
    | c :: _ =>
      let t := lookupD c "text"
      if pyTruthy t then some (pyStr t) else Option.none
  let catTriple : PyVal × PyVal × PyVal :=
    match category_list with
    | [] => (.none, .none, .none)
    | c :: _ => primaryCodingFields (.pdict c)
  let subject_reference := extractReference (lookupD row "subject")
  { id := lookupD row "id"
    source_file := lookupD row "_source_file"
    source_bundle := lookupD row "_source_bundle"
    status := lookupD row "status"
    subject_reference := subject_reference
    subject_id := extractReferenceId subject_reference
    effective_datetime := extractEffectiveDatetime row
    issued := lookupD row "issued"
    category_text := category_text
    category_system := catTriple.1
    category_code := catTriple.2.1
    category_display := catTriple.2.2
    code_text := extractCodeText code_obj
    code_system := codeTriple.1
    code_code := codeTriple.2.1
    code_display := codeTriple.2.2
    performer_references := performer_list.map (fun p => extractReference (.pdict p))
    performer_ids :=
      performer_list.map (fun p => extractReferenceId (extractReference (.pdict p)))
    code_codings :=
      (iterCodings code_obj).map (fun c => (lookupD c "system", lookupD c "code", lookupD c "display"))
    category_codings :=
      category_list.enum.flatMap (fun ic =>
        (iterCodings (.pdict ic.2)).map (fun c =>
          (ic.1, lookupD c "system", lookupD c "code", lookupD c "display")))
    components :=
      component_list.enum.map (fun ic =>
        let component_code := lookupD ic.2 "code"
        let t := primaryCodingFields component_code
        { component_index := ic.1
          code_text := extractCodeText component_code
          code_system := t.1
          code_code := t.2.1
          code_display := t.2.2
          value := extractValueFields ic.2 })
    component_count := component_list.length
    validation_errors := []
    value := extractValueFields row }

/-! ### Condition transformer (`src/transformations/conditions.py`)

Unlike the observation transformer, several accesses in this module are not
isinstance-guarded, so a malformed bronze row can raise: `.get` on a truthy
non-dict raises AttributeError, `"/" in x` on a non-container raises
TypeError.  These exceptional paths are embedded in `Except PyErr`. -/

/-- The Python exceptions that the condition transformer can raise. -/
inductive PyErr where
  | attributeError
  | typeError
deriving DecidableEq, Repr

/-- `x.get(k)` as a method call: AttributeError unless `x` is a dict. -/
def pyGetMethod (x : PyVal) (k : String) : Except PyErr PyVal :=
  match x with
  | .pdict kvs => .ok (lookupD kvs k)
  | _ => .error .attributeError

/-- Replaces every occurrence of `pat` in `cs` (left to right, non
overlapping), as Python `str.replace`. -/
def replaceAllChars (cs pat sub : List Char) (fuel : Nat) : List Char :=
  match fuel with
  | 0 => cs
  | fuel + 1 =>
    match cs with
    | [] => []
    | c :: rest =>
      if pat ≠ [] ∧ pat.isPrefixOf cs then
        sub ++ replaceAllChars (cs.drop pat.length) pat sub fuel
      else
        c :: replaceAllChars rest pat sub fuel

/-- `_extract_reference_id` (`src/transformations/conditions.py`, lines
33-41).  Falsy input returns None; a string containing `/` splits on `/` and
keeps the last part (this check comes BEFORE the `urn:uuid:` check, the
reverse of `src/common/fhir.py`); otherwise a `urn:uuid:` prefix triggers
`replace("urn:uuid:", "")`; otherwise the string is returned unchanged.  A
truthy non-string raises: `"/" in x` is a TypeError for scalars, and for a
list or dict the subsequent attribute access raises AttributeError. -/
def condExtractReferenceId (reference : PyVal) : Except PyErr PyVal :=
  if !pyTruthy reference then .ok .none
  else
    match reference with
    | .ps s =>
      let cs := s.toList
      if cs.contains '/' then .ok (.ps (String.mk (afterLastChar '/' cs)))
      else if charsStartWith cs ("urn:uuid:".toList) then
        .ok (.ps (String.mk (replaceAllChars cs ("urn:uuid:".toList) [] cs.length)))
      else .ok (.ps s)
    | .plist _ => .error .attributeError
    | .pdict _ => .error .attributeError
    | _ => .error .typeError

/-- `_extract_first_coding` (`src/transformations/conditions.py`, lines
44-56): the first entry of a truthy CodeableConcept coding list as a
`(system, code, display)` record; all-None when absent.  A truthy non-dict
concept raises AttributeError on `.get`, as does a first coding entry that is
not a dict. -/
def condExtractFirstCoding (codeable_concept : PyVal) :
    Except PyErr (PyVal × PyVal × PyVal) :=
  if !pyTruthy codeable_concept then .ok (.none, .none, .none)
  else
    match codeable_concept with
    | .pdict kvs =>
      let codings := getOr kvs "coding" (.plist [])
      match codings with
      | .plist (c :: _) =>
        match c with
        | .pdict ckvs => .ok (lookupD ckvs "system", lookupD ckvs "code", lookupD ckvs "display")
        | _ => .error .attributeError
      | _ => .ok (.none, .none, .none)
    | _ => .error .attributeError

/-- The `for cat in category_list` loop of `_extract_category`: the first
dict entry whose first coding carries a truthy code wins; non-dict entries
are skipped; a dict entry with a malformed coding list propagates the
AttributeError of `_extract_first_coding`. -/
def condExtractCategoryLoop : List PyVal → Except PyErr (PyVal × PyVal)
  | [] => .ok (.none, .none)
  | cat :: rest =>
    match cat with
    | .pdict _ => do
      let coding ← condExtractFirstCoding cat
      if pyTruthy coding.2.1 then .ok (coding.2.1, coding.2.2)
      else condExtractCategoryLoop rest
    | _ => condExtractCategoryLoop rest

/-- `_extract_category` (`src/transformations/conditions.py`, lines 59-68):
the `(code, display)` of the first qualifying category entry, `(None, None)`
for a falsy or non-list category value or when no entry qualifies. -/
def condExtractCategory (category_list : PyVal) : Except PyErr (PyVal × PyVal) :=
  match category_list with
  | .plist cats =>
    if cats.isEmpty then .ok (.none, .none)
    else condExtractCategoryLoop cats
  | _ => .ok (.none, .none)

/-- The onset/abatement resolution inlined in `transform_condition_row`
(lines 88-102): the plain field when not None, else the `value` entry of the
dict-valued underscore-prefixed sibling, else None. -/
def condResolveDate (row : List (String × PyVal)) (key ukey : String) : PyVal :=
  let d := lookupD row key
  if d.isNone then
    match lookupD row ukey with
    | .pdict e => lookupD e "value"
    | _ => .none
  else d

/-- One silver Condition row as produced by `transform_condition_row`. -/
structure CondRawRow where
  id : PyVal
  source_file : PyVal
  source_bundle : PyVal
  patient_id : PyVal
  patient_display : PyVal
  category_code : PyVal
  category_display : PyVal
  code_system : PyVal
  code : PyVal
  code_display : PyVal
  code_text : PyVal
  onset_date : PyVal
  abatement_date : PyVal
  asserter_display : PyVal
  validation_errors : List String

/-- `transform_condition_row` (`src/transformations/conditions.py`, lines
71-120).  The fallible accesses run in source order: `subject.get` calls
first, then the category scan, then the code first coding, then (inside the
result dict literal, in key order) the patient reference id, the code text,
and the asserter display. -/
def transformConditionRow (row : List (String × PyVal)) : Except PyErr CondRawRow := do
  let subject := pyOr (getOr row "subject" (.pdict [])) (.pdict [])
  let patient_ref ← pyGetMethod subject "reference"
  let patient_display ← pyGetMethod subject "display"
  let category ← condExtractCategory (lookupD row "category")
  let code_obj := pyOr (getOr row "code" (.pdict [])) (.pdict [])
  let code_coding ← condExtractFirstCoding code_obj
  let asserter := pyOr (getOr row "asserter" (.pdict [])) (.pdict [])
  let onset_date := condResolveDate row "onsetDateTime" "_onsetDateTime"
  let abatement_date := condResolveDate row "abatementDateTime" "_abatementDateTime"
  let patient_id ← condExtractReferenceId patient_ref
  let code_text ← pyGetMethod code_obj "text"
  let asserter_display ← pyGetMethod asserter "display"
  pure
    { id := lookupD row "id"
      source_file := lookupD row "_source_file"
      source_bundle := lookupD row "_source_bundle"
      patient_id := patient_id
      patient_display := patient_display
      category_code := category.1
      category_display := category.2
      code_system := code_coding.1
      code := code_coding.2.1
      code_display := code_coding.2.2
      code_text := code_text
      onset_date := onset_date
      abatement_date := abatement_date
      asserter_display := asserter_display
      validation_errors := [] }

/-! ### Validation rule engine (`src/validations/patients.py`,
`src/validations/observations.py`, `src/validations/conditions.py`)

Silver rows reaching validation have passed through the typed Polars frame
constructors, so their columns carry the declared types: nullable strings are
`Option String`, the quantity value is a nullable float, `component_count` is
a non-null integer.  Boolean Polars expressions over nullable columns follow
Kleene logic (`none` is the null boolean), modelled by `kOr`/`kNot`;
`pl.when(c).then(x).otherwise(y)` yields `x` exactly when `c` is true and `y`
when `c` is false or null. -/

/-- Kleene negation: null stays null. -/
def kNot : Option Bool → Option Bool := Option.map not

/-- Kleene disjunction: true dominates, null absorbs a false. -/
def kOr : Option Bool → Option Bool → Option Bool
  | some true, _ => some true
  | _, some true => some true
  | some false, some false => some false
  | _, _ => Option.none

/-- `col.is_null()`: a non-null boolean. -/
def kIsNull (v : Option String) : Option Bool := some v.isNone

/-- `col.is_not_null()`: a non-null boolean. -/
def kIsNotNull (v : Option String) : Option Bool := some v.isSome

/-- `col.is_in(values)`: elementwise membership, null input yields null. -/
def kIsIn (v : Option String) (values : List String) : Option Bool :=
  v.map (fun s => values.contains s)

/-- `pl.when(cond).then(lit name).otherwise(lit None)`. -/
def plWhenName (cond : Option Bool) (name : String) : Option String :=
  if cond = some true then some name else Option.none

/-- The regex test `^\d{4}-\d{2}-\d{2}$` (`_is_valid_date_format`), on ASCII
digits as in the data. -/
def isFullDate (s : String) : Bool :=
  match s.toList with
  | [a, b, c, d, e, f, g, h, i, j] =>
    a.isDigit && b.isDigit && c.isDigit && d.isDigit && e = '-'
      && f.isDigit && g.isDigit && h = '-' && i.isDigit && j.isDigit
  | _ => false

/-- The unanchored regex test `^\d{4}-\d{2}-\d{2}`
(`_looks_like_date_or_datetime`). -/
def startsWithDate (s : String) : Bool :=
  match s.toList with
  | a :: b :: c :: d :: e :: f :: g :: h :: i :: j :: _ =>
    a.isDigit && b.isDigit && c.isDigit && d.isDigit && e = '-'
      && f.isDigit && g.isDigit && h = '-' && i.isDigit && j.isDigit
  | _ => false

/-- The regex test `\d` (`_is_valid_phone`). -/
def containsDigit (s : String) : Bool :=
  s.toList.any Char.isDigit

/-- A named validation rule over rows of type `ρ`: name, vectorized boolean
predicate (modelled row-wise), human description. -/
structure VRule (ρ : Type) where
  name : String
  check : ρ → Option Bool
  description : String

/-- The shared evaluator core of `validate_patient` / `validate_observation`
/ `validate_condition`: per rule, name where the negated check is true, null
otherwise; the per-rule results concatenate into one list and nulls drop. -/
def runRules {ρ : Type} (rules : List (VRule ρ)) (row : ρ) : List String :=
  (rules.map (fun r => plWhenName (kNot (r.check row)) r.name)).filterMap id

/-- The silver Patient columns read by the patient rules, plus the error
column; the remaining Patient schema columns do not enter validation and are
unchanged by it. -/
structure PatientV where
  id : Option String
  family_name : Option String
  given_names : Option String
  full_name : Option String
  birth_date : Option String
  gender : Option String
  phone : Option String
  validation_errors : List String

/-- `VALID_GENDERS`. -/
def VALID_GENDERS : List String := ["male", "female", "other", "unknown"]

/-- `PATIENT_VALIDATION_RULES` (`src/validations/patients.py`, lines 43-72). -/
def PATIENT_VALIDATION_RULES : List (VRule PatientV) :=
  [ { name := "id_required"
      check := fun row => kIsNotNull row.id
      description := "Patient ID must not be null" }
  , { name := "birth_date_format"
      check := fun row => kOr (kIsNull row.birth_date) (row.birth_date.map isFullDate)
      description := "Birth date must be in YYYY-MM-DD format" }
  , { name := "gender_valid"
      check := fun row => kOr (kIsNull row.gender) (kIsIn row.gender VALID_GENDERS)
      description := "Gender must be one of: male, female, other, unknown" }
  , { name := "phone_format"
      check := fun row => kOr (kIsNull row.phone) (row.phone.map containsDigit)
      description := "Phone must contain at least one digit" }
  , { name := "has_name"
      check := fun row =>
        kOr (kOr (kIsNotNull row.family_name) (kIsNotNull row.given_names))
          (kIsNotNull row.full_name)
      description := "Patient must have at least one name component" } ]

/-- `validate_patient` on one row: recompute the error column, leave the
rest unchanged. -/
def validatePatientRow (row : PatientV) : PatientV :=
  { row with validation_errors := runRules PATIENT_VALIDATION_RULES row }

/-- `validate_patient` on a whole silver table. -/
def validatePatient (table : List PatientV) : List PatientV :=
  table.map validatePatientRow

/-- The silver Observation columns read by the observation rules, plus the
error column. -/
structure ObservationV where
  id : Option String
  status : Option String
  subject_reference : Option String
  effective_datetime : Option String
  code_text : Option String
  code_code : Option String
  value_quantity_value : Option PFloat
  value_quantity_unit : Option String
  value_codeable_concept_code : Option String
  value_string : Option String
  value_boolean : Option Bool
  value_integer : Option Int
  value_datetime : Option String
  component_count : Int
  validation_errors : List String

/-- `VALID_OBSERVATION_STATUSES`. -/
def VALID_OBSERVATION_STATUSES : List String :=
  ["registered", "preliminary", "final", "amended", "corrected", "cancelled",
    "entered-in-error", "unknown"]

/-- `_has_any_value` (`src/validations/observations.py`, lines 43-52): some
extracted value is non-null or at least one component exists; every disjunct
is a non-null boolean. -/
def hasAnyValue (row : ObservationV) : Option Bool :=
  kOr (kOr (kOr (kOr (kOr (kOr
    (some row.value_quantity_value.isSome)
    (some row.value_codeable_concept_code.isSome))
    (some row.value_string.isSome))
    (some row.value_boolean.isSome))
    (some row.value_integer.isSome))
    (some row.value_datetime.isSome))
    (some (decide (0 < row.component_count)))

/-- `OBSERVATION_VALIDATION_RULES` (`src/validations/observations.py`, lines
55-105). -/
def OBSERVATION_VALIDATION_RULES : List (VRule ObservationV) :=
  [ { name := "id_required"
      check := fun row => kIsNotNull row.id
      description := "Observation id must not be null" }
  , { name := "status_required"
      check := fun row => kIsNotNull row.status
      description := "Observation status must not be null" }
  , { name := "status_valid"
      check := fun row => kIsIn row.status VALID_OBSERVATION_STATUSES
      description := "Observation status must be a canonical FHIR status" }
  , { name := "code_present"
      check := fun row => kOr (kIsNotNull row.code_code) (kIsNotNull row.code_text)
      description := "Observation must have a code (code_code or code_text)" }
  , { name := "subject_present"
      check := fun row => kIsNotNull row.subject_reference
      description := "Observation must have a subject reference" }
  , { name := "effective_format"
      check := fun row =>
        kOr (kIsNull row.effective_datetime) (row.effective_datetime.map startsWithDate)
      description := "effective_datetime should start with YYYY-MM-DD when present" }
  , { name := "has_value_or_components"
      check := hasAnyValue
      description := "Observation should have a value or at least one component" }
  , { name := "quantity_unit_if_value"
      check := fun row =>
        kOr (some row.value_quantity_value.isNone) (kIsNotNull row.value_quantity_unit)
      description := "If value_quantity_value is present, value_quantity_unit must be present" }
  , { name := "quantity_value_finite"
      check := fun row =>
        kOr (some row.value_quantity_value.isNone)
          (row.value_quantity_value.map PFloat.isFinite)
      description := "If value_quantity_value is present, it must be finite" } ]

/-- `validate_observation` on one row. -/
def validateObservationRow (row : ObservationV) : ObservationV :=
  { row with validation_errors := runRules OBSERVATION_VALIDATION_RULES row }

/-- `validate_observation` on a whole silver table. -/
def validateObservation (table : List ObservationV) : List ObservationV :=
  table.map validateObservationRow

/-- The silver Condition columns read by the condition rules, plus the error
column. -/
structure ConditionV where
  id : Option String
  code : Option String
  code_display : Option String
  code_system : Option String
  patient_id : Option String
  onset_date : Option String
  abatement_date : Option String
  validation_errors : List String

/-- `SNOMED_SYSTEM`. -/
def SNOMED_SYSTEM : String := "http://snomed.info/sct"

/-- `CONDITION_VALIDATION_RULES` (`src/validations/conditions.py`, lines
41-80). -/
def CONDITION_VALIDATION_RULES : List (VRule ConditionV) :=
  [ { name := "id_required"
      check := fun row => kIsNotNull row.id
      description := "Condition ID must not be null" }
  , { name := "code_required"
      check := fun row => kIsNotNull row.code
      description := "Condition must have a diagnosis code" }
  , { name := "code_display_required"
      check := fun row => kIsNotNull row.code_display
      description := "Condition must have a diagnosis display name" }
  , { name := "patient_id_required"
      check := fun row => kIsNotNull row.patient_id
      description := "Condition must be linked to a patient" }
  , { name := "onset_date_format"
      check := fun row => kOr (kIsNull row.onset_date) (row.onset_date.map isFullDate)
      description := "Onset date must be in YYYY-MM-DD format" }
  , { name := "abatement_date_format"
      check := fun row => kOr (kIsNull row.abatement_date) (row.abatement_date.map isFullDate)
      description := "Abatement date must be in YYYY-MM-DD format" }
  , { name := "valid_code_system"
      check := fun row =>
        kOr (kIsNull row.code_system) (row.code_system.map (fun s => s = SNOMED_SYSTEM))
      description := "Code system should be SNOMED CT" } ]

/-- `validate_condition` on one row. -/
def validateConditionRow (row : ConditionV) : ConditionV :=
  { row with validation_errors := runRules CONDITION_VALIDATION_RULES row }

/-- `validate_condition` on a whole silver table. -/
def validateCondition (table : List ConditionV) : List ConditionV :=
  table.map validateConditionRow

/-! ### Validation reporting (`src/reporting/validation_reports.py`; the same
logic is repeated verbatim in the three `src/validations/*.py` modules)

Only the `validation_errors` column enters the report, so a table is
modelled as the list of the error lists of its rows. -/

/-- `pl.col("validation_errors").list.explode()`: each list element becomes a
row; an empty list explodes to a single null row. -/
def explodeErrors (rows : List (List String)) : List (Option String) :=
  rows.flatMap (fun es => match es with | [] => [Option.none] | _ => es.map some)

/-- `group_by` + `agg(len)` over key-value pairs, keys in first-occurrence
order (a deterministic refinement of the engine's unspecified group order).
Structured with explicit fuel so that it evaluates by kernel reduction. -/
def groupPairsAux {K V : Type} [DecidableEq K] : Nat → List (K × V) → List (K × List V)
  | 0, _ => []
  | _ + 1, [] => []
  | fuel + 1, (k, v) :: rest =>
    (k, v :: ((rest.filter (fun r => r.1 = k)).map Prod.snd))
      :: groupPairsAux fuel (rest.filter (fun r => r.1 ≠ k))

/-- `group_by` with enough fuel for the whole list. -/
def groupPairs {K V : Type} [DecidableEq K] (l : List (K × V)) : List (K × List V) :=
  groupPairsAux l.length l

/-- The sort key relation of `sort("count", descending=True)`. -/
def countGe (a b : String × Nat) : Prop := b.2 ≤ a.2

instance : DecidableRel countGe := fun a b => inferInstanceAs (Decidable (b.2 ≤ a.2))

instance : IsTotal (String × Nat) countGe := ⟨fun a b => le_total b.2 a.2⟩

instance : IsTrans (String × Nat) countGe := ⟨fun _ _ _ h1 h2 => le_trans h2 h1⟩

/-- `get_validation_summary`: explode the error lists, drop nulls, count per
error name, sort by count descending. -/
def getValidationSummary (rows : List (List String)) : List (String × Nat) :=
  let exploded := ((explodeErrors rows).filterMap id).map (fun e => (e, ()))
  ((groupPairs exploded).map (fun kv => (kv.1, kv.2.length))).insertionSort countGe

/-- The report record returned by `get_validation_report`. -/
structure ValidationReport where
  total_records : Nat
  valid_records : Nat
  invalid_records : Nat
  validity_rate : Rat
  errors_by_rule : List (String × Nat)

/-- `get_validation_report` (`src/reporting/validation_reports.py`, lines
27-46): totals, complement, guarded rate (exact rational in the model), and
the sorted per-rule counts. -/
def getValidationReport (rows : List (List String)) : ValidationReport :=
  let total := rows.length
  let valid := (rows.filter (fun es => es.isEmpty)).length
  { total_records := total
    valid_records := valid
    invalid_records := total - valid
    validity_rate := if 0 < total then (valid : Rat) / (total : Rat) else 0
    errors_by_rule := getValidationSummary rows }

/-! ### Gold aggregation (`src/gold/observations_per_patient.py`)

Only `Patient.id`, `Patient.birth_date`, `Observation.id` and
`Observation.subject_id` enter the aggregation, so the silver inputs are
modelled by these columns.  Join and group order are fixed to left-row /
first-occurrence order, a deterministic refinement of the engine's
unspecified ordering. -/

/-- A proleptic Gregorian calendar date. -/
structure PDate where
  year : Int
  month : Nat
  day : Nat
deriving DecidableEq, Repr

/-- Gregorian leap year test. -/
def isLeapYear (y : Int) : Bool :=
  (y % 4 = 0 ∧ y % 100 ≠ 0) ∨ y % 400 = 0

/-- Days in a month of a given year. -/
def daysInMonth (y : Int) (m : Nat) : Nat :=
  if m = 2 then (if isLeapYear y then 29 else 28)
  else if m = 4 ∨ m = 6 ∨ m = 9 ∨ m = 11 then 30
  else 31

/-- `str.to_date(format="%Y-%m-%d", strict=False)` on one value: parses a
calendar-valid `YYYY-MM-DD` string (4-digit year as in the data), `none` on
anything else. -/
def parseDate (s : String) : Option PDate :=
  match s.toList with
  | [a, b, c, d, e, f, g, h, i, j] =>
    if (a.isDigit && b.isDigit && c.isDigit && d.isDigit && e = '-'
        && f.isDigit && g.isDigit && h = '-' && i.isDigit && j.isDigit) then
      let y : Int := (digitsToNat [a, b, c, d] : Int)
      let m := digitsToNat [f, g]
      let dy := digitsToNat [i, j]
      if 1 ≤ m ∧ m ≤ 12 ∧ 1 ≤ dy ∧ dy ≤ daysInMonth y m then
        some { year := y, month := m, day := dy }
      else Option.none
    else Option.none
  | _ => Option.none

/-- Serial day number of a civil date (days since 1970-01-01), the standard
days-from-civil computation used by the engine's date arithmetic. -/
def daysFromCivil (dt : PDate) : Int :=
  let y : Int := if dt.month ≤ 2 then dt.year - 1 else dt.year
  let era : Int := (if 0 ≤ y then y else y - 399) / 400
  let yoe : Int := y - era * 400
  let mp : Int := ((dt.month : Int) + 9) % 12
  let doy : Int := (153 * mp + 2) / 5 + (dt.day : Int) - 1
  let doe : Int := yoe * 365 + yoe / 4 - yoe / 100 + doy
  era * 146097 + doe - 719468

/-- `(lit(as_of) - birth_date).dt.total_days().floordiv(365)`: whole-day
difference floor-divided by 365. -/
def ageYears (asOf bd : PDate) : Int :=
  Int.fdiv (daysFromCivil asOf - daysFromCivil bd) 365

/-- The silver Patient columns consumed by the gold aggregation. -/
structure PatientG where
  id : Option String
  birth_date : Option String
deriving DecidableEq, Repr

/-- The silver Observation columns consumed by the gold aggregation. -/
structure ObsG where
  id : Option String
  subject_id : Option String
deriving DecidableEq, Repr

/-- One row of `gold.observations_per_patient`. -/
structure GoldRow where
  patient_id : Option String
  observation_count : Nat
  birth_date : Option PDate
  patient_age_years : Option Int
deriving DecidableEq, Repr

/-- Equi-join key comparison: null keys never match (`join_nulls` defaults to
false). -/
def joinKeyMatch (a b : Option String) : Bool :=
  match a, b with
  | some x, some y => x = y
  | _, _ => false

/-- The `group_by` key columns `(id, birth_date)` of one patient. -/
def patientKey (p : PatientG) : Option String × Option String :=
  (p.id, p.birth_date)

/-- The joined rows contributed by one patient in the left join of
`build_observations_per_patient`: one row per matching observation carrying
the observation id, or a single row with a null observation id when nothing
matches.  Each row is paired with the `group_by` key of the patient. -/
def obsBlock (p : PatientG) (os : List ObsG) :
    List ((Option String × Option String) × Option String) :=
  match os.filter (fun o => joinKeyMatch p.id o.subject_id) with
  | [] => [((p.id, p.birth_date), Option.none)]
  | ms => ms.map (fun o => ((p.id, p.birth_date), o.id))

/-- The left join of `build_observations_per_patient`: every patient row is
kept, in patient order. -/
def leftJoinObs (ps : List PatientG) (os : List ObsG) :
    List ((Option String × Option String) × Option String) :=
  ps.flatMap (fun p => obsBlock p os)

/-- `build_observations_per_patient` (`src/gold/observations_per_patient.py`,
lines 15-77): left join, group by `(id, birth_date)` counting non-null
observation ids, parse `birth_date` non-strictly, and derive the age in
whole years (null birth date gives null age). -/
def buildObservationsPerPatient (ps : List PatientG) (os : List ObsG) (asOf : PDate) :
    List GoldRow :=
  (groupPairs (leftJoinObs ps os)).map (fun kv =>
    let parsed := kv.1.2.bind parseDate
    { patient_id := kv.1.1
      observation_count := (kv.2.filter Option.isSome).length
      birth_date := parsed
      patient_age_years := parsed.map (fun d => ageYears asOf d) })

/-! ### Facts about the value[x] extractor -/

/-- Closed form of the resolved type tag: the priority chain quantity,
codeable-concept, string, boolean, integer, datetime. -/
theorem extractValueFields_value_type_eq (v : List (String × PyVal)) :
    (extractValueFields v).value_type =
      (if (lookupD v "valueQuantity").isDict then some "quantity"
       else if (lookupD v "valueCodeableConcept").isDict then some "codeable_concept"
       else if !(lookupD v "valueString").isNone then some "string"
       else if !(lookupD v "valueBoolean").isNone then some "boolean"
       else if !(lookupD v "valueInteger").isNone then some "integer"
       else if !(lookupD v "valueDateTime").isNone then some "datetime"
       else Option.none) := by
  cases hq : lookupD v "valueQuantity" <;>
    cases hc : lookupD v "valueCodeableConcept" <;>
      simp_all [extractValueFields, PyVal.isDict]

/-- The raw string column reads only the `valueString` key. -/
theorem extractValueFields_value_string_eq (v : List (String × PyVal)) :
    (extractValueFields v).value_string =
      (match lookupD v "valueString" with
       | .none => Option.none
       | u => some (pyStr u)) := rfl

/-- The raw boolean column reads only the `valueBoolean` key. -/
theorem extractValueFields_value_boolean_eq (v : List (String × PyVal)) :
    (extractValueFields v).value_boolean =
      (match lookupD v "valueBoolean" with
       | .pb b => some b
       | _ => Option.none) := rfl

/-- The raw integer column reads only the `valueInteger` key. -/
theorem extractValueFields_value_integer_eq (v : List (String × PyVal)) :
    (extractValueFields v).value_integer =
      (if (lookupD v "valueInteger").isInstInt then lookupD v "valueInteger"
       else PyVal.none) := rfl

/-- The raw datetime column reads only the `valueDateTime` key. -/
theorem extractValueFields_value_datetime_eq (v : List (String × PyVal)) :
    (extractValueFields v).value_datetime =
      (match lookupD v "valueDateTime" with
       | .none => Option.none
       | u => some (pyStr u)) := rfl

/-- The quantity value column reads only the `valueQuantity` key. -/
theorem extractValueFields_qvalue_eq (v : List (String × PyVal)) :
    (extractValueFields v).value_quantity_value =
      (match lookupD v "valueQuantity" with
       | .pdict q =>
         let raw := lookupD q "value"
         if raw.isNumber then pyFloat raw
         else if raw.isNone then Option.none
         else pyFloat raw
       | _ => Option.none) := rfl

/-- The codeable-concept columns read only the `valueCodeableConcept` key. -/
theorem extractValueFields_cc_eq (v : List (String × PyVal)) :
    (extractValueFields v).value_codeable_concept_system
        = (primaryCodingFields (lookupD v "valueCodeableConcept")).1
      ∧ (extractValueFields v).value_codeable_concept_code
        = (primaryCodingFields (lookupD v "valueCodeableConcept")).2.1
      ∧ (extractValueFields v).value_codeable_concept_display
        = (primaryCodingFields (lookupD v "valueCodeableConcept")).2.2
      ∧ (extractValueFields v).value_codeable_concept_text
        = extractCodeText (lookupD v "valueCodeableConcept") :=
  ⟨rfl, rfl, rfl, rfl⟩

/-- A dict lookup steps over one entry. -/
theorem lookupD_cons (a : String × PyVal) (l : List (String × PyVal)) (q : String) :
    lookupD (a :: l) q = if a.1 = q then a.2 else lookupD l q := by
  by_cases h : a.1 = q <;> simp [lookupD, List.find?_cons, h]

/-- Dropping a key from a dict makes its lookup None. -/
theorem lookupD_filterKey_self (v : List (String × PyVal)) (k : String) :
    lookupD (v.filter (fun kv => kv.1 ≠ k)) k = PyVal.none := by
  induction v with
  | nil => rfl
  | cons a rest ih =>
    rw [List.filter_cons]
    by_cases ha : a.1 = k
    · simpa [ha] using ih
    · have h1 : (decide (a.1 ≠ k)) = true := by simpa using ha
      rw [h1, if_pos rfl, lookupD_cons, if_neg ha, ih]

/-- Dropping one key from a dict leaves the other lookups unchanged. -/
theorem lookupD_filterKey_ne (v : List (String × PyVal)) (k q : String)
    (h : q ≠ k) : lookupD (v.filter (fun kv => kv.1 ≠ k)) q = lookupD v q := by
  induction v with
  | nil => rfl
  | cons a rest ih =>
    rw [List.filter_cons]
    by_cases ha : a.1 = k
    · have haq : ¬ a.1 = q := fun hq => h (hq ▸ ha)
      have h1 : (decide (a.1 ≠ k)) = false := by simpa using ha
      rw [h1]
      simp only [Bool.false_eq_true, if_false]
      rw [ih, lookupD_cons, if_neg haq]
    · have h1 : (decide (a.1 ≠ k)) = true := by simpa using ha
      rw [h1, if_pos rfl, lookupD_cons, lookupD_cons, ih]

/-- The input object of the C2 and C3 examples: both a dict-valued
`valueQuantity` and a string `valueString` are present. -/
def vBoth : List (String × PyVal) :=
  [("valueQuantity", .pdict [("value", .pi 120)]), ("valueString", .ps "x")]

/-- The input object of the C10 example: a dict-valued `valueQuantity`
without any `value` entry. -/
def vEmptyQuantity : List (String × PyVal) :=
  [("valueQuantity", .pdict [])]

/-- C2: the resolved `value_type` of `_extract_value_fields` follows the
fixed priority quantity, codeable-concept, string, boolean, integer,
datetime; an object with both a dict `valueQuantity` and a `valueString`
resolves to "quantity". -/
theorem C2_value_type_priority :
    (∀ (v q : List (String × PyVal)), lookupD v "valueQuantity" = PyVal.pdict q →
      (extractValueFields v).value_type = some "quantity")
    ∧ (∀ (v c : List (String × PyVal)), (lookupD v "valueQuantity").isDict = false →
      lookupD v "valueCodeableConcept" = PyVal.pdict c →
      (extractValueFields v).value_type = some "codeable_concept")
    ∧ (∀ v : List (String × PyVal), (lookupD v "valueQuantity").isDict = false →
      (lookupD v "valueCodeableConcept").isDict = false →
      (lookupD v "valueString").isNone = false →
      (extractValueFields v).value_type = some "string")
    ∧ (∀ v : List (String × PyVal), (lookupD v "valueQuantity").isDict = false →
      (lookupD v "valueCodeableConcept").isDict = false →
      (lookupD v "valueString").isNone = true →
      (lookupD v "valueBoolean").isNone = false →
      (extractValueFields v).value_type = some "boolean")
    ∧ (∀ v : List (String × PyVal), (lookupD v "valueQuantity").isDict = false →
      (lookupD v "valueCodeableConcept").isDict = false →
      (lookupD v "valueString").isNone = true →
      (lookupD v "valueBoolean").isNone = true →
      (lookupD v "valueInteger").isNone = false →
      (extractValueFields v).value_type = some "integer")
    ∧ (∀ v : List (String × PyVal), (lookupD v "valueQuantity").isDict = false →
      (lookupD v "valueCodeableConcept").isDict = false →
      (lookupD v "valueString").isNone = true →
      (lookupD v "valueBoolean").isNone = true →
      (lookupD v "valueInteger").isNone = true →
      (lookupD v "valueDateTime").isNone = false →
      (extractValueFields v).value_type = some "datetime")
    ∧ (∀ v : List (String × PyVal), (lookupD v "valueQuantity").isDict = false →
      (lookupD v "valueCodeableConcept").isDict = false →
      (lookupD v "valueString").isNone = true →
      (lookupD v "valueBoolean").isNone = true →
      (lookupD v "valueInteger").isNone = true →
      (lookupD v "valueDateTime").isNone = true →
      (extractValueFields v).value_type = Option.none)
    ∧ (extractValueFields vBoth).value_type = some "quantity" := by
  refine ⟨?_, ?_, ?_, ?_, ?_, ?_, ?_, by decide⟩ <;>
    intro v
  all_goals intros
  all_goals rw [extractValueFields_value_type_eq]
  all_goals simp_all [PyVal.isDict]

/-- Witness for C2 at concrete inputs: a quantity-only object, an object
pairing a codeable concept with a string, and a string-only object. -/
theorem C2_value_type_priority_witness :
    (extractValueFields [("valueQuantity", PyVal.pdict [])]).value_type = some "quantity"
    ∧ (extractValueFields [("valueCodeableConcept", PyVal.pdict []), ("valueString", PyVal.ps "x")]).value_type
        = some "codeable_concept"
    ∧ (extractValueFields [("valueString", PyVal.ps "x")]).value_type = some "string"
    ∧ (extractValueFields [("valueBoolean", PyVal.pb false)]).value_type = some "boolean"
    ∧ (extractValueFields [("valueInteger", PyVal.pi 0)]).value_type = some "integer"
    ∧ (extractValueFields [("valueDateTime", PyVal.ps "2020-01-01")]).value_type = some "datetime"
    ∧ (extractValueFields []).value_type = Option.none :=
  ⟨C2_value_type_priority.1 _ [] rfl,
    C2_value_type_priority.2.1 _ [] rfl rfl,
    C2_value_type_priority.2.2.1 _ rfl rfl rfl,
    C2_value_type_priority.2.2.2.1 _ rfl rfl rfl rfl,
    C2_value_type_priority.2.2.2.2.1 _ rfl rfl rfl rfl rfl,
    C2_value_type_priority.2.2.2.2.2.1 _ rfl rfl rfl rfl rfl rfl,
    C2_value_type_priority.2.2.2.2.2.2.1 _ rfl rfl rfl rfl rfl rfl⟩

/-- C3 counterexample: an object carrying both a dict-valued `valueQuantity`
and a `valueString` resolves `value_type` to "quantity", yet `value_string`
keeps the string instead of the claimed None — the raw columns are not
cleared when their type loses the priority race. -/
theorem C3_counterexample :
    (extractValueFields vBoth).value_type = some "quantity"
      ∧ (extractValueFields vBoth).value_string ≠ Option.none := by
  exact ⟨rfl, by decide⟩

/-- C3 as amended: every raw value column of `_extract_value_fields` depends
only on its own source key, independently of the resolved `value_type`; a
column is None exactly when its own key is absent, null, or of the wrong
shape (non-dict `valueQuantity` / `valueCodeableConcept`, non-bool
`valueBoolean`, non-int `valueInteger`), and in particular an object with
both a dict `valueQuantity` and a `valueString` keeps the string value. -/
theorem C3_value_columns_by_key :
    (∀ v w : List (String × PyVal), lookupD v "valueString" = lookupD w "valueString" →
      (extractValueFields v).value_string = (extractValueFields w).value_string)
    ∧ (∀ v w : List (String × PyVal), lookupD v "valueBoolean" = lookupD w "valueBoolean" →
      (extractValueFields v).value_boolean = (extractValueFields w).value_boolean)
    ∧ (∀ v w : List (String × PyVal), lookupD v "valueInteger" = lookupD w "valueInteger" →
      (extractValueFields v).value_integer = (extractValueFields w).value_integer)
    ∧ (∀ v w : List (String × PyVal), lookupD v "valueDateTime" = lookupD w "valueDateTime" →
      (extractValueFields v).value_datetime = (extractValueFields w).value_datetime)
    ∧ (∀ v w : List (String × PyVal),
      lookupD v "valueCodeableConcept" = lookupD w "valueCodeableConcept" →
      (extractValueFields v).value_codeable_concept_text
          = (extractValueFields w).value_codeable_concept_text
        ∧ (extractValueFields v).value_codeable_concept_code
          = (extractValueFields w).value_codeable_concept_code)
    ∧ (∀ v : List (String × PyVal), (lookupD v "valueString").isNone = true →
      (extractValueFields v).value_string = Option.none)
    ∧ (∀ v : List (String × PyVal), (lookupD v "valueQuantity").isDict = false →
      (extractValueFields v).value_quantity_value = Option.none
        ∧ (extractValueFields v).value_quantity_unit = PyVal.none
        ∧ (extractValueFields v).value_quantity_system = PyVal.none
        ∧ (extractValueFields v).value_quantity_code = PyVal.none)
    ∧ (∀ v : List (String × PyVal), (lookupD v "valueCodeableConcept").isDict = false →
      (extractValueFields v).value_codeable_concept_text = Option.none
        ∧ (extractValueFields v).value_codeable_concept_system = PyVal.none
        ∧ (extractValueFields v).value_codeable_concept_code = PyVal.none
        ∧ (extractValueFields v).value_codeable_concept_display = PyVal.none)
    ∧ (extractValueFields vBoth).value_string = some "x" := by
  refine ⟨?_, ?_, ?_, ?_, ?_, ?_, ?_, ?_, rfl⟩
  · intro v w h
    rw [extractValueFields_value_string_eq, extractValueFields_value_string_eq, h]
  · intro v w h
    rw [extractValueFields_value_boolean_eq, extractValueFields_value_boolean_eq, h]
  · intro v w h
    rw [extractValueFields_value_integer_eq, extractValueFields_value_integer_eq, h]
  · intro v w h
    rw [extractValueFields_value_datetime_eq, extractValueFields_value_datetime_eq, h]
  · intro v w h
    refine ⟨?_, ?_⟩
    · rw [(extractValueFields_cc_eq v).2.2.2, (extractValueFields_cc_eq w).2.2.2, h]
    · rw [(extractValueFields_cc_eq v).2.1, (extractValueFields_cc_eq w).2.1, h]
  · intro v h
    rw [extractValueFields_value_string_eq]
    cases hv : lookupD v "valueString" <;> simp_all [PyVal.isNone]
  · intro v h
    cases hv : lookupD v "valueQuantity" <;>
      simp_all [extractValueFields, PyVal.isDict]
  · intro v h
    have hcc := extractValueFields_cc_eq v
    cases hv : lookupD v "valueCodeableConcept" <;>
      simp_all [extractValueFields, PyVal.isDict, primaryCodingFields, iterCodings,
        extractCodeText]

/-- Witness for C3 as amended, at concrete inputs. -/
theorem C3_value_columns_by_key_witness :
    (extractValueFields vBoth).value_string = (extractValueFields [("valueString", PyVal.ps "x")]).value_string
    ∧ (extractValueFields [("valueString", PyVal.none)]).value_string = Option.none
    ∧ (extractValueFields vBoth).value_codeable_concept_code = PyVal.none
    ∧ (extractValueFields vBoth).value_string = some "x" :=
  ⟨C3_value_columns_by_key.1 vBoth [("valueString", PyVal.ps "x")] rfl,
    C3_value_columns_by_key.2.2.2.2.2.1 [("valueString", PyVal.none)] rfl,
    (C3_value_columns_by_key.2.2.2.2.2.2.2.1 vBoth rfl).2.2.1,
    C3_value_columns_by_key.2.2.2.2.2.2.2.2⟩

/-! ### Facts about the rule engine core -/

/-- Kleene disjunction of two non-null booleans is ordinary disjunction. -/
theorem kOr_some (a b : Bool) : kOr (some a) (some b) = some (a || b) := by
  cases a <;> cases b <;> rfl

/-- The error list produced by the engine is exactly the names of the rules
whose check evaluated to false, in declaration order: a true check and a null
check produce a null entry, which `drop_nulls` removes. -/
theorem runRules_eq_filter {ρ : Type} (rules : List (VRule ρ)) (row : ρ) :
    runRules rules row
      = (rules.filter (fun r => r.check row = some false)).map VRule.name := by
  induction rules with
  | nil => rfl
  | cons r rs ih =>
    cases h : r.check row with
    | none =>
      simp [runRules, List.filterMap_cons, List.filter_cons, plWhenName, kNot, h] at ih ⊢
      exact ih
    | some b =>
      cases b <;>
        (simp [runRules, List.filterMap_cons, List.filter_cons, plWhenName, kNot, h] at ih ⊢;
          exact ih)

/-- Membership in a produced error list, characterized by the rules. -/
theorem mem_runRules_iff {ρ : Type} (rules : List (VRule ρ)) (row : ρ) (e : String) :
    e ∈ runRules rules row ↔ ∃ rl ∈ rules, rl.name = e ∧ rl.check row = some false := by
  rw [runRules_eq_filter]
  simp [List.mem_filter, and_comm, and_left_comm]

/-- C10: `_extract_value_fields` tags an object "quantity" whenever the
`valueQuantity` key holds a dict, even one without a parseable numeric
value, so `value_type = "quantity"` can coexist with a null
`value_quantity_value`; such a row (all raw values null, no components)
fails `has_value_or_components`, while another raw value or a positive
component count rescues it; a non-dict `valueQuantity` is ignored entirely
for type detection. -/
theorem C10_quantity_tag_without_value :
    (∀ (v q : List (String × PyVal)), lookupD v "valueQuantity" = PyVal.pdict q →
      (extractValueFields v).value_type = some "quantity")
    ∧ (∀ v : List (String × PyVal), (lookupD v "valueQuantity").isDict = false →
      (extractValueFields v).value_type
        = (extractValueFields (v.filter (fun kv => kv.1 ≠ "valueQuantity"))).value_type)
    ∧ (extractValueFields vEmptyQuantity).value_type = some "quantity"
    ∧ (extractValueFields vEmptyQuantity).value_quantity_value = Option.none
    ∧ (∀ r : ObservationV, r.value_quantity_value = Option.none →
        r.value_codeable_concept_code = Option.none → r.value_string = Option.none →
        r.value_boolean = Option.none → r.value_integer = Option.none →
        r.value_datetime = Option.none → r.component_count ≤ 0 →
        "has_value_or_components" ∈ (validateObservationRow r).validation_errors)
    ∧ (∀ r : ObservationV, r.value_string.isSome = true ∨ 0 < r.component_count →
        "has_value_or_components" ∉ (validateObservationRow r).validation_errors) := by
  refine ⟨?_, ?_, rfl, rfl, ?_, ?_⟩
  · intro v q h
    rw [extractValueFields_value_type_eq, h]
    rfl
  · intro v h
    rw [extractValueFields_value_type_eq, extractValueFields_value_type_eq,
      lookupD_filterKey_self,
      lookupD_filterKey_ne v "valueQuantity" "valueCodeableConcept" (by decide),
      lookupD_filterKey_ne v "valueQuantity" "valueString" (by decide),
      lookupD_filterKey_ne v "valueQuantity" "valueBoolean" (by decide),
      lookupD_filterKey_ne v "valueQuantity" "valueInteger" (by decide),
      lookupD_filterKey_ne v "valueQuantity" "valueDateTime" (by decide)]
    have hnone : (PyVal.none).isDict = false := rfl
    simp [h, hnone]
  · intro r h1 h2 h3 h4 h5 h6 h7
    have hval : hasAnyValue r = some false := by
      simp [hasAnyValue, h1, h2, h3, h4, h5, h6, kOr_some]
      omega
    refine (mem_runRules_iff OBSERVATION_VALIDATION_RULES r _).2
      ⟨{ name := "has_value_or_components", check := hasAnyValue,
         description := "Observation should have a value or at least one component" },
        ?_, rfl, hval⟩
    simp [OBSERVATION_VALIDATION_RULES]
  · intro r h hmem
    have hval : hasAnyValue r = some true := by
      rcases h with h | h <;> simp [hasAnyValue, kOr_some, h]
    obtain ⟨rl, hrl, hname, hcheck⟩ :=
      (mem_runRules_iff OBSERVATION_VALIDATION_RULES r _).1 hmem
    simp only [OBSERVATION_VALIDATION_RULES, List.mem_cons, List.not_mem_nil,
      or_false] at hrl
    rcases hrl with rfl | rfl | rfl | rfl | rfl | rfl | rfl | rfl | rfl <;>
      simp_all

/-- Witness for C10 at concrete inputs: the empty-quantity object and a
silver row with a bare "quantity" tag and an otherwise empty value block. -/
theorem C10_quantity_tag_without_value_witness :
    (extractValueFields [("valueQuantity", PyVal.pdict [("value", PyVal.plist [])])]).value_type
        = some "quantity"
    ∧ (extractValueFields [("valueQuantity", PyVal.ps "5")]).value_type
        = (extractValueFields []).value_type
    ∧ "has_value_or_components" ∈
        (validateObservationRow
          { id := some "o1", status := some "final", subject_reference := Option.none,
            effective_datetime := Option.none, code_text := Option.none,
            code_code := Option.none, value_quantity_value := Option.none,
            value_quantity_unit := Option.none,
            value_codeable_concept_code := Option.none, value_string := Option.none,
            value_boolean := Option.none, value_integer := Option.none,
            value_datetime := Option.none, component_count := 0,
            validation_errors := [] }).validation_errors
    ∧ "has_value_or_components" ∉
        (validateObservationRow
          { id := some "o2", status := some "final", subject_reference := Option.none,
            effective_datetime := Option.none, code_text := Option.none,
            code_code := Option.none, value_quantity_value := Option.none,
            value_quantity_unit := Option.none,
            value_codeable_concept_code := Option.none, value_string := some "v",
            value_boolean := Option.none, value_integer := Option.none,
            value_datetime := Option.none, component_count := 0,
            validation_errors := [] }).validation_errors :=
  ⟨C10_quantity_tag_without_value.1 _ [("value", PyVal.plist [])] rfl,
    C10_quantity_tag_without_value.2.1 _ rfl,
    C10_quantity_tag_without_value.2.2.2.2.1 _ rfl rfl rfl rfl rfl rfl (by decide),
    C10_quantity_tag_without_value.2.2.2.2.2 _ (Or.inl rfl)⟩

/-- C5 counterexample: on `"urn:uuid:a/b"` the shared extractor strips the
`urn:uuid:` prefix first and yields `"a/b"`, but the Condition transformer
version checks `/` first and yields `"b"` — the two priority orders differ,
so the claimed common priority is false. -/
theorem C5_counterexample :
    extractReferenceId (some "urn:uuid:a/b") = some "a/b"
      ∧ condExtractReferenceId (PyVal.ps "urn:uuid:a/b") = Except.ok (PyVal.ps "b")
      ∧ condExtractReferenceId (PyVal.ps "urn:uuid:a/b")
          ≠ Except.ok (PyVal.ps "a/b") := by
  refine ⟨rfl, rfl, ?_⟩
  intro h
  rw [show condExtractReferenceId (PyVal.ps "urn:uuid:a/b") = Except.ok (PyVal.ps "b")
    from rfl] at h
  simp at h

/-- C5 as amended: `extract_reference_id` in `src/common/fhir.py` behaves as
claimed — None for None or empty input, `urn:uuid:` prefix stripped first,
else the tail after the last `/`, else the string unchanged (an empty
remainder collapsing to None) — and the four spec examples hold; the
Condition transformer version instead checks `/` BEFORE `urn:uuid:`, though
it agrees with the shared extractor on those examples. -/
theorem C5_reference_id_extraction :
    extractReferenceId Option.none = Option.none
    ∧ extractReferenceId (some "") = Option.none
    ∧ (∀ s : String, s ≠ "" → charsStartWith s.toList ("urn:uuid:".toList) = true →
        s.toList.drop 9 ≠ [] →
        extractReferenceId (some s) = some (String.mk (s.toList.drop 9)))
    ∧ (∀ s : String, s ≠ "" → charsStartWith s.toList ("urn:uuid:".toList) = false →
        s.toList.contains '/' = true → afterLastChar '/' s.toList ≠ [] →
        extractReferenceId (some s) = some (String.mk (afterLastChar '/' s.toList)))
    ∧ (∀ s : String, s ≠ "" → charsStartWith s.toList ("urn:uuid:".toList) = false →
        s.toList.contains '/' = false →
        extractReferenceId (some s) = some s)
    ∧ extractReferenceId (some "Patient/123") = some "123"
    ∧ extractReferenceId (some "urn:uuid:abc-def") = some "abc-def"
    ∧ extractReferenceId (some "123") = some "123"
    ∧ (∀ s : String, s ≠ "" → s.toList.contains '/' = true →
        condExtractReferenceId (PyVal.ps s)
          = Except.ok (PyVal.ps (String.mk (afterLastChar '/' s.toList))))
    ∧ condExtractReferenceId (PyVal.ps "urn:uuid:abc-def") = Except.ok (PyVal.ps "abc-def")
    ∧ condExtractReferenceId (PyVal.ps "Patient/123") = Except.ok (PyVal.ps "123") := by
  refine ⟨rfl, rfl, ?_, ?_, ?_, by decide, by decide, by decide, ?_, rfl, rfl⟩
  · intro s hs hpre hrest
    simp_all [extractReferenceId]
  · intro s hs hpre hslash htail
    simp_all [extractReferenceId]
  · intro s hs hpre hslash
    simp_all [extractReferenceId]
  · intro s hs hslash
    simp_all [condExtractReferenceId, pyTruthy]

/-- Witness for C5 as amended, at the spec examples and a urn reference. -/
theorem C5_reference_id_extraction_witness :
    extractReferenceId (some "urn:uuid:abc-def")
        = some (String.mk ("urn:uuid:abc-def".toList.drop 9))
    ∧ extractReferenceId (some "Patient/123")
        = some (String.mk (afterLastChar '/' "Patient/123".toList))
    ∧ extractReferenceId (some "123") = some "123"
    ∧ condExtractReferenceId (PyVal.ps "Patient/123")
        = Except.ok (PyVal.ps (String.mk (afterLastChar '/' "Patient/123".toList))) :=
  ⟨C5_reference_id_extraction.2.2.1 "urn:uuid:abc-def" (by decide) (by decide) (by decide),
    C5_reference_id_extraction.2.2.2.1 "Patient/123" (by decide) (by decide) (by decide)
      (by decide),
    C5_reference_id_extraction.2.2.2.2.1 "123" (by decide) (by decide) (by decide),
    C5_reference_id_extraction.2.2.2.2.2.2.2.2.1 "Patient/123" (by decide) (by decide)⟩

/-- Inverts a successful `Except` bind. -/
theorem except_bind_ok {ε α β : Type} (x : Except ε α) (f : α → Except ε β) (b : β)
    (h : (x >>= f) = .ok b) : ∃ a, x = .ok a ∧ f a = .ok b := by
  cases x with
  | error e => simp [bind, Except.bind] at h
  | ok a => exact ⟨a, rfl, by simpa [bind, Except.bind] using h⟩

/-- On every successful transform, the date columns carry the inline
onset/abatement resolution of the source. -/
theorem transformConditionRow_ok_dates (row : List (String × PyVal)) (out : CondRawRow)
    (h : transformConditionRow row = Except.ok out) :
    out.onset_date = condResolveDate row "onsetDateTime" "_onsetDateTime"
      ∧ out.abatement_date = condResolveDate row "abatementDateTime" "_abatementDateTime" := by
  rw [transformConditionRow] at h
  obtain ⟨v1, h1, h⟩ := except_bind_ok _ _ _ h
  obtain ⟨v2, h2, h⟩ := except_bind_ok _ _ _ h
  obtain ⟨v3, h3, h⟩ := except_bind_ok _ _ _ h
  obtain ⟨v4, h4, h⟩ := except_bind_ok _ _ _ h
  obtain ⟨v5, h5, h⟩ := except_bind_ok _ _ _ h
  obtain ⟨v6, h6, h⟩ := except_bind_ok _ _ _ h
  obtain ⟨v7, h7, h⟩ := except_bind_ok _ _ _ h
  injection h with h8
  subst h8
  exact ⟨rfl, rfl⟩

/-- The bronze Condition row of the C9 example: a null `onsetDateTime` next
to an underscore-wrapper `_onsetDateTime` carrying the date. -/
def condRowOnsetFallback : List (String × PyVal) :=
  [("onsetDateTime", .none), ("_onsetDateTime", .pdict [("value", .ps "2021-05-01")])]

/-- C9: on every bronze Condition row that transforms successfully,
`onset_date` is the row's `onsetDateTime` when that value is non-null and
otherwise the `value` entry of a dict-valued `_onsetDateTime` (None when the
wrapper is not a dict); `abatement_date` behaves symmetrically; the spec
example row extracts `onset_date = "2021-05-01"`. -/
theorem C9_onset_fallback :
    (∀ (row : List (String × PyVal)) (out : CondRawRow),
      transformConditionRow row = Except.ok out →
      ((lookupD row "onsetDateTime").isNone = false →
          out.onset_date = lookupD row "onsetDateTime")
        ∧ ((lookupD row "onsetDateTime").isNone = true →
          (∀ e, lookupD row "_onsetDateTime" = PyVal.pdict e →
            out.onset_date = lookupD e "value")
          ∧ ((lookupD row "_onsetDateTime").isDict = false → out.onset_date = PyVal.none))
        ∧ ((lookupD row "abatementDateTime").isNone = false →
          out.abatement_date = lookupD row "abatementDateTime")
        ∧ ((lookupD row "abatementDateTime").isNone = true →
          (∀ e, lookupD row "_abatementDateTime" = PyVal.pdict e →
            out.abatement_date = lookupD e "value")
          ∧ ((lookupD row "_abatementDateTime").isDict = false →
            out.abatement_date = PyVal.none)))
    ∧ (transformConditionRow condRowOnsetFallback).map CondRawRow.onset_date
        = Except.ok (PyVal.ps "2021-05-01") := by
  refine ⟨?_, rfl⟩
  intro row out h
  obtain ⟨ho, ha⟩ := transformConditionRow_ok_dates row out h
  rw [ho, ha]
  refine ⟨?_, ?_, ?_, ?_⟩
  · intro hn
    simp [condResolveDate, hn]
  · intro hn
    refine ⟨?_, ?_⟩
    · intro e he
      simp [condResolveDate, hn, he]
    · intro hd
      cases hv : lookupD row "_onsetDateTime" <;>
        simp_all [condResolveDate, PyVal.isDict]
  · intro hn
    simp [condResolveDate, hn]
  · intro hn
    refine ⟨?_, ?_⟩
    · intro e he
      simp [condResolveDate, hn, he]
    · intro hd
      cases hv : lookupD row "_abatementDateTime" <;>
        simp_all [condResolveDate, PyVal.isDict]

/-- The silver row produced by the C9 example input. -/
def condOutOnsetFallback : CondRawRow :=
  { id := .none, source_file := .none, source_bundle := .none, patient_id := .none,
    patient_display := .none, category_code := .none, category_display := .none,
    code_system := .none, code := .none, code_display := .none, code_text := .none,
    onset_date := .ps "2021-05-01", abatement_date := .none, asserter_display := .none,
    validation_errors := [] }

/-- Witness for C9: the example row transforms successfully and its output
carries the fallback onset date and a null abatement date. -/
theorem C9_onset_fallback_witness :
    transformConditionRow condRowOnsetFallback = Except.ok condOutOnsetFallback
    ∧ condOutOnsetFallback.onset_date = lookupD [("value", PyVal.ps "2021-05-01")] "value"
    ∧ condOutOnsetFallback.abatement_date = PyVal.none :=
  ⟨rfl,
    ((C9_onset_fallback.1 condRowOnsetFallback condOutOnsetFallback rfl).2.1 rfl).1 _ rfl,
    ((C9_onset_fallback.1 condRowOnsetFallback condOutOnsetFallback rfl).2.2.2 rfl).2 rfl⟩

/-- The malformed bronze Condition row showing C4 false on the code: the
`subject` field is a truthy non-dict. -/
def condRowStringSubject : List (String × PyVal) :=
  [("subject", .ps "Patient/123")]

/-- C4: the claimed totality fails in `transform_condition_row` — a bronze
row whose `subject` is the string "Patient/123" raises AttributeError at
`subject.get("reference")` (the `or {}` guard only covers falsy values), so
no silver row is produced for it, contradicting the never-raise design
requirement. -/
theorem C4_condition_transformer_raises :
    transformConditionRow condRowStringSubject = Except.error PyErr.attributeError
      ∧ (transformConditionRow condRowStringSubject).isOk = false :=
  ⟨rfl, rfl⟩

/-- A bronze Observation row whose performer list mixes a dict without a
reference, a non-dict entry, and a dict with a resolvable reference. -/
def obsPerformerExample : List (String × PyVal) :=
  [("performer", .plist [.pdict [("display", .ps "d")], .ps "bad",
    .pdict [("reference", .ps "Practitioner/9")]])]

/-- C6: `transform_observation_row` produces `performer_references` and
`performer_ids` as parallel equal-length lists with exactly one entry per
dict entry of the performer list, keeping None placeholders for
absent or malformed references; in the example the referenceless performer
stays as a None entry rather than being dropped. -/
theorem C6_performer_parallel_lists :
    (∀ row : List (String × PyVal),
      (transformObservationRow row).performer_references
          = (iterDictList (lookupD row "performer")).map
              (fun p => extractReference (.pdict p))
        ∧ (transformObservationRow row).performer_ids
          = (iterDictList (lookupD row "performer")).map
              (fun p => extractReferenceId (extractReference (.pdict p)))
        ∧ (transformObservationRow row).performer_references.length
          = (iterDictList (lookupD row "performer")).length
        ∧ (transformObservationRow row).performer_ids.length
          = (iterDictList (lookupD row "performer")).length)
    ∧ (transformObservationRow obsPerformerExample).performer_references
        = [Option.none, some "Practitioner/9"]
    ∧ (transformObservationRow obsPerformerExample).performer_ids
        = [Option.none, some "9"] := by
  refine ⟨?_, by decide, by decide⟩
  intro row
  refine ⟨rfl, rfl, ?_, ?_⟩ <;>
    simp [transformObservationRow, List.length_map]

/-- A rule whose check is null on a row contributes nothing to that row,
provided rule names are distinct. -/
theorem check_none_name_not_mem {ρ : Type} (rules : List (VRule ρ)) (row : ρ)
    (hnd : (rules.map VRule.name).Nodup) (rl : VRule ρ) (hrl : rl ∈ rules)
    (hnone : rl.check row = Option.none) : rl.name ∉ runRules rules row := by
  intro hmem
  obtain ⟨rl2, hrl2, hname, hcheck⟩ := (mem_runRules_iff rules row _).1 hmem
  have heq : rl2 = rl := List.inj_on_of_nodup_map hnd hrl2 hrl hname
  rw [heq, hnone] at hcheck
  simp at hcheck

/-- The declared patient rule names are distinct. -/
theorem patient_rule_names_nodup : (PATIENT_VALIDATION_RULES.map VRule.name).Nodup := by
  decide

/-- The declared observation rule names are distinct. -/
theorem observation_rule_names_nodup :
    (OBSERVATION_VALIDATION_RULES.map VRule.name).Nodup := by
  decide

/-- The declared condition rule names are distinct. -/
theorem condition_rule_names_nodup :
    (CONDITION_VALIDATION_RULES.map VRule.name).Nodup := by
  decide

/-- C1: for each entity, validating a silver table rewrites every row's
`validation_errors` to exactly the names of the rules whose predicate
evaluated to false for that row, in declaration order; every listed name
belongs to the declared rule set, and a rule whose predicate evaluates to
null contributes nothing for that row. -/
theorem C1_validation_errors_exact :
    (∀ table : List PatientV, validatePatient table = table.map validatePatientRow)
    ∧ (∀ row : PatientV,
        (validatePatientRow row).validation_errors
            = (PATIENT_VALIDATION_RULES.filter
                (fun rl => rl.check row = some false)).map VRule.name
          ∧ (∀ e ∈ (validatePatientRow row).validation_errors,
              e ∈ PATIENT_VALIDATION_RULES.map VRule.name)
          ∧ (∀ rl ∈ PATIENT_VALIDATION_RULES, rl.check row = Option.none →
              rl.name ∉ (validatePatientRow row).validation_errors))
    ∧ (∀ table : List ObservationV,
        validateObservation table = table.map validateObservationRow)
    ∧ (∀ row : ObservationV,
        (validateObservationRow row).validation_errors
            = (OBSERVATION_VALIDATION_RULES.filter
                (fun rl => rl.check row = some false)).map VRule.name
          ∧ (∀ e ∈ (validateObservationRow row).validation_errors,
              e ∈ OBSERVATION_VALIDATION_RULES.map VRule.name)
          ∧ (∀ rl ∈ OBSERVATION_VALIDATION_RULES, rl.check row = Option.none →
              rl.name ∉ (validateObservationRow row).validation_errors))
    ∧ (∀ table : List ConditionV,
        validateCondition table = table.map validateConditionRow)
    ∧ (∀ row : ConditionV,
        (validateConditionRow row).validation_errors
            = (CONDITION_VALIDATION_RULES.filter
                (fun rl => rl.check row = some false)).map VRule.name
          ∧ (∀ e ∈ (validateConditionRow row).validation_errors,
              e ∈ CONDITION_VALIDATION_RULES.map VRule.name)
          ∧ (∀ rl ∈ CONDITION_VALIDATION_RULES, rl.check row = Option.none →
              rl.name ∉ (validateConditionRow row).validation_errors)) := by
  refine ⟨fun _ => rfl, ?_, fun _ => rfl, ?_, fun _ => rfl, ?_⟩
  · intro row
    refine ⟨runRules_eq_filter _ _, ?_, ?_⟩
    · intro e he
      obtain ⟨rl, hrl, hname, _⟩ := (mem_runRules_iff _ _ _).1 he
      exact List.mem_map.2 ⟨rl, hrl, hname⟩
    · intro rl hrl hnone
      exact check_none_name_not_mem _ row patient_rule_names_nodup rl hrl hnone
  · intro row
    refine ⟨runRules_eq_filter _ _, ?_, ?_⟩
    · intro e he
      obtain ⟨rl, hrl, hname, _⟩ := (mem_runRules_iff _ _ _).1 he
      exact List.mem_map.2 ⟨rl, hrl, hname⟩
    · intro rl hrl hnone
      exact check_none_name_not_mem _ row observation_rule_names_nodup rl hrl hnone
  · intro row
    refine ⟨runRules_eq_filter _ _, ?_, ?_⟩
    · intro e he
      obtain ⟨rl, hrl, hname, _⟩ := (mem_runRules_iff _ _ _).1 he
      exact List.mem_map.2 ⟨rl, hrl, hname⟩
    · intro rl hrl hnone
      exact check_none_name_not_mem _ row condition_rule_names_nodup rl hrl hnone

/-- A concrete silver patient row: null id, no name parts, everything else
well formed. -/
def wPatient : PatientV :=
  { id := Option.none, family_name := Option.none, given_names := Option.none,
    full_name := Option.none, birth_date := some "1990-05-05", gender := some "male",
    phone := Option.none, validation_errors := [] }

/-- A concrete silver observation row with a null status: `status_required`
fails while the null-status `status_valid` membership test is null. -/
def wObservation : ObservationV :=
  { id := some "o1", status := Option.none, subject_reference := some "Patient/1",
    effective_datetime := Option.none, code_text := some "BP",
    code_code := Option.none, value_quantity_value := Option.none,
    value_quantity_unit := Option.none, value_codeable_concept_code := Option.none,
    value_string := some "v", value_boolean := Option.none,
    value_integer := Option.none, value_datetime := Option.none,
    component_count := 0, validation_errors := [] }

/-- Witness for C1 at concrete rows: the computed error list of the patient
row, a subset instance, and the null-check non-contribution on the
observation row with null status. -/
theorem C1_validation_errors_exact_witness :
    (validatePatientRow wPatient).validation_errors
        = (PATIENT_VALIDATION_RULES.filter
            (fun rl => rl.check wPatient = some false)).map VRule.name
    ∧ "id_required" ∈ PATIENT_VALIDATION_RULES.map VRule.name
    ∧ "status_valid" ∉ (validateObservationRow wObservation).validation_errors :=
  ⟨(C1_validation_errors_exact.2.1 wPatient).1,
    (C1_validation_errors_exact.2.1 wPatient).2.1 "id_required" (by decide),
    (C1_validation_errors_exact.2.2.2.1 wObservation).2.2
      { name := "status_valid",
        check := fun row => kIsIn row.status VALID_OBSERVATION_STATUSES,
        description := "Observation status must be a canonical FHIR status" }
      (by simp [OBSERVATION_VALIDATION_RULES]) rfl⟩

/-- C8: for every validated table, the report satisfies
`valid + invalid = total`, the validity rate lies in `[0, 1]`, it equals
`valid / total` exactly when the table is nonempty and `0.0` on an empty
table (no division by zero), and `errors_by_rule` is sorted by count
descending. -/
theorem C8_validation_report_invariants :
    ∀ rows : List (List String),
      (getValidationReport rows).valid_records
          + (getValidationReport rows).invalid_records
          = (getValidationReport rows).total_records
      ∧ 0 ≤ (getValidationReport rows).validity_rate
      ∧ (getValidationReport rows).validity_rate ≤ 1
      ∧ (0 < (getValidationReport rows).total_records →
          (getValidationReport rows).validity_rate
            = ((getValidationReport rows).valid_records : Rat)
                / ((getValidationReport rows).total_records : Rat))
      ∧ ((getValidationReport rows).total_records = 0 →
          (getValidationReport rows).validity_rate = 0)
      ∧ List.Sorted countGe (getValidationReport rows).errors_by_rule := by
  intro rows
  have hle : (rows.filter (fun es => es.isEmpty)).length ≤ rows.length :=
    List.length_filter_le _ _
  refine ⟨?_, ?_, ?_, ?_, ?_, ?_⟩
  · simp only [getValidationReport]
    omega
  · simp only [getValidationReport]
    split
    · positivity
    · exact le_refl 0
  · simp only [getValidationReport]
    split
    · rename_i htot
      rw [div_le_one (by exact_mod_cast htot)]
      exact_mod_cast hle
    · exact zero_le_one
  · intro htot
    simp only [getValidationReport] at htot ⊢
    simp [htot]
  · intro htot
    simp only [getValidationReport] at htot ⊢
    simp [htot]
  · simp only [getValidationReport, getValidationSummary]
    exact List.sorted_insertionSort countGe _

/-- Witness for C8 on a concrete two-row table and the empty table. -/
theorem C8_validation_report_invariants_witness :
    (getValidationReport [["id_required"], []]).valid_records
        + (getValidationReport [["id_required"], []]).invalid_records
        = (getValidationReport [["id_required"], []]).total_records
    ∧ (getValidationReport [["id_required"], []]).validity_rate
        = ((getValidationReport [["id_required"], []]).valid_records : Rat)
            / ((getValidationReport [["id_required"], []]).total_records : Rat)
    ∧ (getValidationReport ([] : List (List String))).validity_rate = 0
    ∧ List.Sorted countGe (getValidationReport [["id_required"], []]).errors_by_rule :=
  ⟨(C8_validation_report_invariants [["id_required"], []]).1,
    (C8_validation_report_invariants [["id_required"], []]).2.2.2.1 (by decide),
    (C8_validation_report_invariants []).2.2.2.2.1 rfl,
    (C8_validation_report_invariants [["id_required"], []]).2.2.2.2.2⟩


/-- The fuel of the grouping combinator is irrelevant once it covers the
list length. -/
theorem groupPairsAux_fuel {K V : Type} [DecidableEq K] (fa : Nat) :
    ∀ (fb : Nat) (l : List (K × V)), l.length ≤ fa → l.length ≤ fb →
      groupPairsAux fa l = groupPairsAux fb l := by
  induction fa with
  | zero =>
    intro fb l ha hb
    have : l = [] := List.eq_nil_of_length_eq_zero (Nat.le_zero.1 ha)
    subst this
    cases fb <;> rfl
  | succ f ih =>
    intro fb l ha hb
    cases l with
    | nil => cases fb <;> rfl
    | cons kv rest =>
      cases fb with
      | zero => simp at hb
      | succ g =>
        simp only [groupPairsAux]
        simp only [List.length_cons] at ha hb
        rw [ih g (rest.filter (fun r => r.1 ≠ kv.1))
          (le_trans (List.length_filter_le _ _) (by omega))
          (le_trans (List.length_filter_le _ _) (by omega))]

/-- Grouping a nonempty block of constant key followed by rows of other
keys yields that block as the first group. -/
theorem groupPairs_cons_block {K V : Type} [DecidableEq K] (k : K)
    (block rest : List (K × V)) (hne : block ≠ [])
    (hblock : ∀ x ∈ block, x.1 = k) (hrest : ∀ x ∈ rest, x.1 ≠ k) :
    groupPairs (block ++ rest) = (k, block.map Prod.snd) :: groupPairs rest := by
  cases block with
  | nil => exact absurd rfl hne
  | cons b btail =>
    obtain ⟨bk, bv⟩ := b
    have hb : bk = k := hblock (bk, bv) (List.mem_cons_self _ _)
    subst hb
    have hbt : ∀ x ∈ btail, x.1 = bk := fun x hx => hblock x (List.mem_cons_of_mem _ hx)
    have h1 : (btail ++ rest).filter (fun r => r.1 = bk) = btail := by
      rw [List.filter_append]
      have e1 : btail.filter (fun r => r.1 = bk) = btail :=
        List.filter_eq_self.2 (fun x hx => by simp [hbt x hx])
      have e2 : rest.filter (fun r => r.1 = bk) = [] :=
        List.filter_eq_nil_iff.2 (fun x hx => by simpa using hrest x hx)
      rw [e1, e2, List.append_nil]
    have h2 : (btail ++ rest).filter (fun r => r.1 ≠ bk) = rest := by
      rw [List.filter_append]
      have e1 : btail.filter (fun r => r.1 ≠ bk) = [] :=
        List.filter_eq_nil_iff.2 (fun x hx => by simp [hbt x hx])
      have e2 : rest.filter (fun r => r.1 ≠ bk) = rest :=
        List.filter_eq_self.2 (fun x hx => by simpa using hrest x hx)
      rw [e1, e2, List.nil_append]
    show groupPairsAux (((bk, bv) :: (btail ++ rest)).length) ((bk, bv) :: (btail ++ rest)) = _
    simp only [List.length_cons, groupPairsAux]
    congr 1
    · rw [h1]
      rfl
    · rw [h2]
      exact groupPairsAux_fuel _ _ _
        (by rw [List.length_append]; omega) (le_refl _)

/-- Every patient contributes at least one joined row (the left join keeps
unmatched patients). -/
theorem obsBlock_ne_nil (p : PatientG) (os : List ObsG) : obsBlock p os ≠ [] := by
  unfold obsBlock
  split
  · simp
  · next h => simpa using h

/-- Every joined row of a patient block carries that patient key. -/
theorem mem_obsBlock_key (p : PatientG) (os : List ObsG) (x) (hx : x ∈ obsBlock p os) :
    x.1 = patientKey p := by
  unfold obsBlock at hx
  split at hx
  · simp at hx
    simp [hx, patientKey]
  · obtain ⟨o, _, rfl⟩ := List.mem_map.1 hx
    rfl

/-- Every joined row key comes from some patient. -/
theorem mem_leftJoinObs_key (ps : List PatientG) (os : List ObsG) (x)
    (hx : x ∈ leftJoinObs ps os) : x.1 ∈ ps.map patientKey := by
  induction ps with
  | nil => simp [leftJoinObs] at hx
  | cons p ps ih =>
    rw [leftJoinObs, List.flatMap_cons] at hx
    rcases List.mem_append.1 hx with h | h
    · rw [List.map_cons]
      exact List.mem_cons.2 (Or.inl (mem_obsBlock_key p os x h))
    · exact List.mem_cons.2 (Or.inr (ih h))

/-- The gold aggregation, row by row: under distinct patient keys, one
output row per patient in patient order, counting the matching
observations that carry a non-null id. -/
theorem buildObservationsPerPatient_eq_map (ps : List PatientG) (os : List ObsG)
    (asOf : PDate) (hnd : (ps.map patientKey).Nodup) :
    buildObservationsPerPatient ps os asOf = ps.map (fun p =>
      { patient_id := p.id
        observation_count :=
          ((os.filter (fun o => joinKeyMatch p.id o.subject_id)).filter
            (fun o => o.id.isSome)).length
        birth_date := p.birth_date.bind parseDate
        patient_age_years := (p.birth_date.bind parseDate).map (ageYears asOf) }) := by
  revert hnd
  induction ps with
  | nil => intro _; rfl
  | cons p ps ih =>
    intro hnd
    rw [List.map_cons] at hnd
    have hnotin := (List.nodup_cons.1 hnd).1
    have hndtail := (List.nodup_cons.1 hnd).2
    unfold buildObservationsPerPatient
    rw [leftJoinObs, List.flatMap_cons]
    rw [groupPairs_cons_block (patientKey p) (obsBlock p os)
      (ps.flatMap (fun q => obsBlock q os))
      (obsBlock_ne_nil p os) (fun x hx => mem_obsBlock_key p os x hx)
      (fun x hx hk => hnotin (hk ▸ mem_leftJoinObs_key ps os x hx))]
    rw [List.map_cons, List.map_cons]
    congr 1
    · show GoldRow.mk p.id ((List.map Prod.snd (obsBlock p os)).filter Option.isSome).length
          (p.birth_date.bind parseDate)
          ((p.birth_date.bind parseDate).map (ageYears asOf)) = _
      congr 1
      unfold obsBlock
      cases hms : os.filter (fun o => joinKeyMatch p.id o.subject_id) with
      | nil => simp
      | cons a l =>
        show (List.filter Option.isSome (List.map Prod.snd
            (List.map (fun o : ObsG => ((p.id, p.birth_date), o.id)) (a :: l)))).length
          = (List.filter (fun o : ObsG => o.id.isSome) (a :: l)).length
        rw [List.map_map,
          show (Prod.snd ∘ fun o : ObsG => ((p.id, p.birth_date), o.id))
            = fun o : ObsG => o.id from rfl,
          List.filter_map, List.length_map]
        rfl
    · have := ih hndtail
      unfold buildObservationsPerPatient at this
      rw [leftJoinObs] at this
      exact this

/-- The patients of the spec gold example. -/
def goldPatientsExample : List PatientG :=
  [ { id := some "p1", birth_date := some "2000-01-01" }
  , { id := some "p2", birth_date := Option.none }
  , { id := some "p3", birth_date := some "not-a-date" } ]

/-- The observations of the spec gold example. -/
def goldObservationsExample : List ObsG :=
  [ { id := some "o1", subject_id := some "p1" }
  , { id := some "o2", subject_id := some "p1" }
  , { id := some "o3", subject_id := some "p1" }
  , { id := some "o4", subject_id := some "p2" }
  , { id := some "o5", subject_id := some "unknown" }
  , { id := some "o6", subject_id := Option.none } ]

/-- The as-of date of the spec gold example. -/
def goldAsOf : PDate := { year := 2025, month := 1, day := 1 }

/-- C7: with distinct patient keys, `build_observations_per_patient`
produces exactly one row per patient; each count covers exactly the
observations whose non-null `subject_id` equals the patient id (a null
subject key never joins, so null or unmatched subjects count for nobody);
an unparseable `birth_date` gives a null date and a null age, a parsed one
the floor-of-days-over-365 age; on the spec example with as-of 2025-01-01
the rows are exactly (p1, 3, 2000-01-01, 25), (p2, 1, null, null),
(p3, 0, null, null). -/
theorem C7_observations_per_patient :
    (∀ (ps : List PatientG) (os : List ObsG) (asOf : PDate),
      (ps.map patientKey).Nodup →
      buildObservationsPerPatient ps os asOf = ps.map (fun p =>
        { patient_id := p.id
          observation_count :=
            ((os.filter (fun o => joinKeyMatch p.id o.subject_id)).filter
              (fun o => o.id.isSome)).length
          birth_date := p.birth_date.bind parseDate
          patient_age_years := (p.birth_date.bind parseDate).map (ageYears asOf) }))
    ∧ (∀ a : Option String, joinKeyMatch a Option.none = false)
    ∧ buildObservationsPerPatient goldPatientsExample goldObservationsExample goldAsOf
        = [ { patient_id := some "p1", observation_count := 3,
              birth_date := some { year := 2000, month := 1, day := 1 },
              patient_age_years := some 25 }
          , { patient_id := some "p2", observation_count := 1,
              birth_date := Option.none, patient_age_years := Option.none }
          , { patient_id := some "p3", observation_count := 0,
              birth_date := Option.none, patient_age_years := Option.none } ] := by
  refine ⟨buildObservationsPerPatient_eq_map, ?_, by decide⟩
  intro a
  cases a <;> rfl

/-- Witness for C7: the general row characterization applied to the spec
example, whose patient keys are distinct. -/
theorem C7_observations_per_patient_witness :
    buildObservationsPerPatient goldPatientsExample goldObservationsExample goldAsOf
      = goldPatientsExample.map (fun p =>
        { patient_id := p.id
          observation_count :=
            ((goldObservationsExample.filter
              (fun o => joinKeyMatch p.id o.subject_id)).filter
              (fun o => o.id.isSome)).length
          birth_date := p.birth_date.bind parseDate
          patient_age_years := (p.birth_date.bind parseDate).map (ageYears goldAsOf) }) :=
  C7_observations_per_patient.1 goldPatientsExample goldObservationsExample goldAsOf
    (by decide)
